import Mathlib

/-!
# sqlver: schema builder and disposable test databases

A shallow embedding of `table.go` (package `sqlver`) and
`sqlvertest/testdb.go` (package `sqlvertest`).

Calls into external collaborators (`database/sql`, `crypto/rand`,
`testing.T`) are recorded as events of a trace; what the collaborator
answers is an input of the embedded function.
-/

namespace Sqlver

/-! ## Errors and credentials -/

/-- Go `error` values that occur in the package: an error produced by a
collaborator (driver, entropy source), an error built by
`fmt.Errorf("<pre>%w", cause)`, and `*PostgresConnectionError`. -/
inductive GoError where
  | driver (msg : String)
  | wrapped (pre : String) (cause : GoError)
  | postgresConnection (err : GoError)
  deriving DecidableEq, Repr

/-- The package-level variables `PostgresUsername` and `PostgresPassword`. -/
structure Credentials where
  PostgresUsername : String
  PostgresPassword : String
  deriving DecidableEq, Repr

/-- The values the package variables are initialised with. -/
def defaultCredentials : Credentials :=
  { PostgresUsername := "yourusername", PostgresPassword := "yourpassword" }

/-- The method `Error()`; for `*PostgresConnectionError` the four writes into
the buffer of `testdb.go:22-29`. -/
def GoError.Error (cfg : Credentials) : GoError → String
  | .driver msg => msg
  | .wrapped pre cause => pre ++ cause.Error cfg
  | .postgresConnection err =>
    let b := ""
    let b := b ++ ("\nConnection to Postgres failed: " ++ err.Error cfg ++ "\n")
    let b := b ++ ("Please run the following commands to create the necessary user and grant permissions:" ++ "\n")
    let b := b ++ ("\tsudo -u postgres createuser --createdb --pwprompt " ++ cfg.PostgresUsername ++ "\n")
    let b := b ++ ("\tsudo -u postgres psql -c \"ALTER USER " ++ cfg.PostgresUsername
      ++ " WITH PASSWORD '" ++ cfg.PostgresPassword ++ "' CREATEDB;\"\n")
    b

/-- The method `Unwrap()`: `testdb.go:31-33` for `*PostgresConnectionError`,
the wrapped cause for an error built with `%w`. -/
def GoError.Unwrap : GoError → Option GoError
  | .driver _ => none
  | .wrapped _ cause => some cause
  | .postgresConnection err => some err

/-! ## Events -/

/-- The two `*sql.DB` variables of `testdb.go`. -/
inductive Conn where
  | mainDB
  | testDB
  deriving DecidableEq, Repr

/-- An argument handed to a `testing.T` logging method. -/
inductive Arg where
  | str (s : String)
  | err (e : GoError)
  deriving DecidableEq, Repr

/-- Calls into the collaborators, in the order they are made. -/
inductive Event where
  | helper
  | sqlOpen (c : Conn) (dsn : String) (ok : Bool)
  | ping (c : Conn) (ok : Bool)
  | close (c : Conn)
  | exec (c : Conn) (stmt : String)
  | randRead
  | fatal (args : List Arg)
  | fatalf (format : String) (args : List Arg)
  | errorf (format : String) (args : List Arg)
  | logf (format : String) (args : List Arg)
  | cleanup (testDBName : String)
  deriving DecidableEq, Repr

/-! ## table.go -/

/-- Type `Column` of `table.go:36-39`. -/
structure Column where
  name : String
  dataType : String
  deriving DecidableEq, Repr

/-- Constructor `Integer` of `table.go:41`. -/
def Integer (name : String) : Column := { name := name, dataType := "integer" }

/-- Constructor `Text` of `table.go:42`. -/
def Text (name : String) : Column := { name := name, dataType := "text" }

/-- Constructor `Boolean` of `table.go:43`. -/
def Boolean (name : String) : Column := { name := name, dataType := "boolean" }

/-- Method `fprintDDL` of `table.go:45-47`: writes `"%s %s"` to the writer. -/
def Column.fprintDDL (c : Column) (w : String) : String :=
  w ++ (c.name ++ " " ++ c.dataType)

/-- Type `Table` of `table.go:11-14`. -/
structure Table where
  Name : String
  Columns : List Column
  deriving DecidableEq, Repr

/-- The loop of `table.go:20-27` over the buffer `ddl` and the flag
`notFirstColumn`. -/
def Table.columnsLoop : List Column → String × Bool → String × Bool
  | [], st => st
  | c :: cs, (ddl, notFirstColumn) =>
    let ddl := if notFirstColumn then ddl ++ "," else ddl
    let ddl := ddl ++ "\n"
    let ddl := c.fprintDDL ddl
    Table.columnsLoop cs (ddl, true)

/-- The content of the buffer `ddl` when `ExecContext` is called,
`table.go:17-28`. -/
def Table.ddl (t : Table) : String :=
  let ddl := ""
  let ddl := ddl ++ ("CREATE TABLE " ++ t.Name ++ " (")
  let st := Table.columnsLoop t.Columns (ddl, false)
  st.1 ++ ")\n"

/-- Method `Up` of `table.go:16-34` on connection `db`; `execErr` is what
`db.ExecContext` answers. Returns the calls made and the returned error. -/
def Table.Up (t : Table) (db : Conn) (execErr : Option GoError) :
    List Event × Option GoError :=
  let calls := [Event.exec db t.ddl]
  match execErr with
  | some err => (calls, some err)
  | none => (calls, none)

/-! ## sqlvertest/testdb.go: the owning test -/

/-- The part of `*testing.T` the package uses: whether the test has been
marked failed, the closures registered with `Cleanup` (each is `teardown`
below, bound to the database name it captured), and the calls made so far. -/
structure T where
  failed : Bool
  cleanups : List String
  trace : List Event
  deriving DecidableEq, Repr

/-- A test that has just started. -/
def T.fresh : T := { failed := false, cleanups := [], trace := [] }

/-- Appends calls to the trace. -/
def T.emit (t : T) (evs : List Event) : T := { t with trace := t.trace ++ evs }

/-- Method `t.Helper()`. -/
def T.Helper (t : T) : T := t.emit [Event.helper]

/-- Method `t.Failed()`. -/
def T.Failed (t : T) : Bool := t.failed

/-- Method `t.Logf`: records the message, leaves the outcome alone. -/
def T.Logf (t : T) (format : String) (args : List Arg) : T :=
  t.emit [Event.logf format args]

/-- Method `t.Errorf`, which the `testing` package documents as `Logf`
followed by `Fail`: the test is marked failed and execution continues. -/
def T.Errorf (t : T) (format : String) (args : List Arg) : T :=
  { t with failed := true, trace := t.trace ++ [Event.errorf format args] }

/-- Method `t.Fatal`, `Log` followed by `FailNow`: the test is marked failed;
the caller stops (running its deferred calls). -/
def T.Fatal (t : T) (args : List Arg) : T :=
  { t with failed := true, trace := t.trace ++ [Event.fatal args] }

/-- Method `t.Fatalf`, `Logf` followed by `FailNow`. -/
def T.Fatalf (t : T) (format : String) (args : List Arg) : T :=
  { t with failed := true, trace := t.trace ++ [Event.fatalf format args] }

/-- Method `t.Cleanup` applied to the closure of `testdb.go:103-120`, which
captures `testDBName`. -/
def T.Cleanup (t : T) (testDBName : String) : T :=
  { t with cleanups := t.cleanups ++ [testDBName],
           trace := t.trace ++ [Event.cleanup testDBName] }

/-! ## sqlvertest/testdb.go: generateUUID -/

/-- The digit table `ldigits` that `fmt` indexes for the verb `%x`. -/
def ldigits : List Char := "0123456789abcdef".data

/-- Verb `%x` applied to a byte slice: for each byte `c` the two characters
`ldigits[c>>4]` and `ldigits[c&0xF]`, nothing in between. -/
def fmtSbx (bs : List Nat) : List Char :=
  bs.flatMap fun c => [ldigits.getD (c >>> 4) '0', ldigits.getD (c &&& 0xF) '0']

/-- Slice expression `s[lo:hi]`. -/
def slice (s : List Nat) (lo hi : Nat) : List Nat := (s.drop lo).take (hi - lo)

/-- Lines 43-47 of `testdb.go`: the version and variant bits are overwritten
in place, then the five slices are printed with `"%x_%x_%x_%x_%x"`. -/
def formatUUID (uuid : List Nat) : String :=
  let uuid := uuid.set 6 ((uuid.getD 6 0 &&& 0x0F) ||| 0x40)
  let uuid := uuid.set 8 ((uuid.getD 8 0 &&& 0x3F) ||| 0x80)
  String.mk (fmtSbx (slice uuid 0 4) ++ ['_'] ++ fmtSbx (slice uuid 4 6) ++ ['_']
    ++ fmtSbx (slice uuid 6 8) ++ ['_'] ++ fmtSbx (slice uuid 8 10) ++ ['_']
    ++ fmtSbx (uuid.drop 10))

/-- Function `generateUUID` of `testdb.go:35-50`; `rd` is what `rand.Read`
answers: an error, or the 16 bytes it wrote into `uuid`. -/
def generateUUID (rd : Except GoError (List Nat)) : Except GoError String :=
  match rd with
  | .error err => .error (GoError.wrapped "failed to generate UUID: " err)
  | .ok uuid => .ok (formatUUID uuid)

/-- What `rand.Read` leaves in a buffer made by `make([]byte, 16)`:
sixteen values, each a byte. -/
def IsEntropy (bs : List Nat) : Prop := bs.length = 16 ∧ ∀ b ∈ bs, b < 256

instance (bs : List Nat) : Decidable (IsEntropy bs) := by
  unfold IsEntropy; infer_instance

/-- A lowercase hexadecimal digit: `0`-`9` or `a`-`f`. -/
def IsLowerHexDigit (c : Char) : Prop := ('0' ≤ c ∧ c ≤ '9') ∨ ('a' ≤ c ∧ c ≤ 'f')

instance (c : Char) : Decidable (IsLowerHexDigit c) := by
  unfold IsLowerHexDigit; infer_instance

/-- A character allowed in an unquoted SQL identifier as the package builds
them: a lowercase letter, a digit or the underscore. -/
def IsIdentChar (c : Char) : Prop :=
  ('a' ≤ c ∧ c ≤ 'z') ∨ ('0' ≤ c ∧ c ≤ '9') ∨ c = '_'

instance (c : Char) : Decidable (IsIdentChar c) := by
  unfold IsIdentChar; infer_instance

/-- The two hexadecimal digits of a byte, high nibble first, a leading zero
included. -/
def hexPair (b : Nat) : List Char := [Nat.digitChar (b / 16), Nat.digitChar (b % 16)]

/-- Two buffers agree on every bit except the high nibble of byte 6 (bits 4-7)
and the top two bits of byte 8 (bits 6-7). -/
def AgreeOnRetainedBits (a b : List Nat) : Prop :=
  ∀ i < 16, ∀ k < 8, (i = 6 → k < 4) → (i = 8 → k < 6) →
    (a.getD i 0).testBit k = (b.getD i 0).testBit k

instance (a b : List Nat) : Decidable (AgreeOnRetainedBits a b) := by
  unfold AgreeOnRetainedBits; infer_instance

/-! ## sqlvertest/testdb.go: connectToPostgres -/

/-- What the server answers during one call of `connectToPostgres`: the error
of `sql.Open` and the error of `db.Ping()` (`none` is Go's `nil`). -/
structure ConnectAnswers where
  openErr : Option GoError
  pingErr : Option GoError
  deriving DecidableEq, Repr

/-- The connection string built at `testdb.go:53`. -/
def adminConnectionString (cfg : Credentials) : String :=
  "host=localhost port=5432 user=" ++ cfg.PostgresUsername ++ " password="
    ++ cfg.PostgresPassword ++ " dbname=postgres sslmode=disable"

/-- Function `connectToPostgres` of `testdb.go:52-63`: the calls it makes and
what it returns (`Except.error e` is Go's `nil, e`). -/
def connectToPostgres (cfg : Credentials) (w : ConnectAnswers) :
    List Event × Except GoError Conn :=
  let connectionString := adminConnectionString cfg
  match w.openErr with
  | some err =>
    ([Event.sqlOpen Conn.mainDB connectionString false],
      .error (GoError.postgresConnection err))
  | none =>
    let calls := [Event.sqlOpen Conn.mainDB connectionString true]
    match w.pingErr with
    | some err =>
      let calls := calls ++ [Event.ping Conn.mainDB false]
      let calls := calls ++ [Event.close Conn.mainDB]
      (calls, .error (GoError.postgresConnection err))
    | none =>
      (calls ++ [Event.ping Conn.mainDB true], .ok Conn.mainDB)

/-! ## sqlvertest/testdb.go: DB and its teardown -/

/-- What the collaborators answer during one call of `DB`. -/
structure ProvisionAnswers where
  admin : ConnectAnswers
  entropy : Except GoError (List Nat)
  createErr : Option GoError
  openErr : Option GoError
  pingErr : Option GoError

/-- The connection string built at `testdb.go:91`. -/
def testDBConnectionString (cfg : Credentials) (testDBName : String) : String :=
  "host=localhost port=5432 user=" ++ cfg.PostgresUsername ++ " password="
    ++ cfg.PostgresPassword ++ " dbname=" ++ testDBName ++ " sslmode=disable"

/-- The name built at `testdb.go:82`. -/
def testDBNameOf (uuid : String) : String := "test_" ++ uuid

/-- Function `DB` of `testdb.go:68-122`. Returns the test afterwards and the
returned connection; `none` when a `Fatal` stopped the function. The call
deferred at line 75 runs whenever the function is left after that line. -/
def DB (cfg : Credentials) (w : ProvisionAnswers) (t : T) : T × Option Conn :=
  let t := t.Helper
  let r := connectToPostgres cfg w.admin
  let t := t.emit r.1
  match r.2 with
  | .error err => (t.Fatal [Arg.err err], none)
  | .ok conn =>
    let deferred := fun (t : T) => t.emit [Event.close conn]
    let t := t.emit [Event.randRead]
    match generateUUID w.entropy with
    | .error err =>
      (deferred (t.Fatalf "failed to generate UUID for test database name: %s" [Arg.err err]),
        none)
    | .ok uuid =>
      let testDBName := testDBNameOf uuid
      let t := t.emit [Event.exec conn ("CREATE DATABASE " ++ testDBName ++ ";")]
      match w.createErr with
      | some err =>
        (deferred (t.Fatalf "failed to create test database: %s" [Arg.err err]), none)
      | none =>
        let dsn := testDBConnectionString cfg testDBName
        match w.openErr with
        | some err =>
          let t := t.emit [Event.sqlOpen Conn.testDB dsn false]
          (deferred (t.Fatalf "failed to connect to test database: %s" [Arg.err err]), none)
        | none =>
          let t := t.emit [Event.sqlOpen Conn.testDB dsn true]
          match w.pingErr with
          | some err =>
            let t := t.emit [Event.ping Conn.testDB false]
            let t := t.emit [Event.close Conn.testDB]
            (deferred (t.Fatalf "failed to ping test database: %s" [Arg.err err]), none)
          | none =>
            let t := t.emit [Event.ping Conn.testDB true]
            let t := t.Cleanup testDBName
            (deferred t, some Conn.testDB)

/-- What the collaborators answer during one run of the teardown. -/
structure TeardownAnswers where
  closeErr : Option GoError
  admin : ConnectAnswers
  dropErr : Option GoError

/-- The closure registered at `testdb.go:103-120`, bound to `testDBName`. -/
def teardown (cfg : Credentials) (testDBName : String) (w : TeardownAnswers) (t : T) : T :=
  let t := t.emit [Event.close Conn.testDB]
  let t := match w.closeErr with
    | some err => t.Errorf "Failed to close test DB connection: %s" [Arg.err err]
    | none => t
  if t.Failed then
    t.Logf "Database left intact: %q" [Arg.str testDBName]
  else
    let r := connectToPostgres cfg w.admin
    let t := t.emit r.1
    match r.2 with
    | .error err =>
      t.Fatalf "cannot connect to postgres to drop %q: %s" [Arg.str testDBName, Arg.err err]
    | .ok conn =>
      let deferred := fun (t : T) => t.emit [Event.close conn]
      let t := t.emit [Event.exec conn ("DROP DATABASE " ++ testDBName ++ ";")]
      match w.dropErr with
      | some err =>
        deferred (t.Fatalf "failed to drop test database %q: %s"
          [Arg.str testDBName, Arg.err err])
      | none => deferred t

/-! ## Reading a trace -/

/-- The effect of one call on the set of open connections: a successful
`sql.Open` opens one, `Close` closes it. -/
def stepConns (cs : List Conn) : Event → List Conn
  | Event.sqlOpen c _ true => if c ∈ cs then cs else cs ++ [c]
  | Event.close c => cs.filter (fun d => d ≠ c)
  | _ => cs

/-- The connections that are open after the calls of a trace. -/
def openConns (evs : List Event) : List Conn := evs.foldl stepConns []

/-- The statements executed by the calls of a trace, in order. -/
def execs (evs : List Event) : List String :=
  evs.filterMap fun ev =>
    match ev with
    | Event.exec _ stmt => some stmt
    | _ => none

/-- Whether a call is a `sql.Open`. -/
def Event.isOpen : Event → Bool
  | Event.sqlOpen _ _ _ => true
  | _ => false

/-- Whether a call executes a statement. -/
def Event.isExec : Event → Bool
  | Event.exec _ _ => true
  | _ => false

/-- Answers of a run of `DB` in which every collaborator succeeds and the
entropy source writes the bytes `0, 1, ..., 15`. -/
def allSucceed : ProvisionAnswers :=
  { admin := { openErr := none, pingErr := none },
    entropy := Except.ok (List.range 16),
    createErr := none, openErr := none, pingErr := none }

/-- Answers of a teardown in which closing the scoped connection fails and
the server would accept an administrative connection and the drop. -/
def closeFails : TeardownAnswers :=
  { closeErr := some (GoError.driver "sql: connection is busy"),
    admin := { openErr := none, pingErr := none },
    dropErr := none }

/-- Answers of a teardown in which every collaborator succeeds. -/
def teardownSucceeds : TeardownAnswers :=
  { closeErr := none, admin := { openErr := none, pingErr := none }, dropErr := none }

/-- A test that was marked failed by its body, which made no calls. -/
def failedTest : T := { failed := true, cleanups := [], trace := [] }

/-- The calls a function added to the trace of a test that had made `before`
calls when the function started. -/
def newCalls (before : T) (after : T) : List Event := after.trace.drop before.trace.length

/-- Whether `sub` occurs in `s` as a contiguous run of characters. -/
def Contains (s sub : String) : Prop := sub.data <:+: s.data

/-! ## Table.Up -/

theorem intercalate_go_append (p a sep : String) (l : List String) :
    String.intercalate.go (p ++ a) sep l = p ++ String.intercalate.go a sep l := by
  induction l generalizing a with
  | nil => simp [String.intercalate.go]
  | cons x xs ih =>
    simp only [String.intercalate.go]
    rw [← ih]
    simp [String.append_assoc]

theorem columnsLoop_notFirst (cs : List Column) (acc : String) :
    Table.columnsLoop cs (acc, true)
      = (String.intercalate.go acc ","
          (cs.map fun c => "\n" ++ c.name ++ " " ++ c.dataType), true) := by
  induction cs generalizing acc with
  | nil => simp [Table.columnsLoop, String.intercalate.go]
  | cons c cs ih =>
    simp only [Table.columnsLoop, Column.fprintDDL, if_true, List.map_cons,
      String.intercalate.go]
    rw [ih]
    simp only [String.append_assoc]

theorem ddl_eq (n : String) (cs : List Column) :
    (Table.mk n cs).ddl
      = "CREATE TABLE " ++ n ++ " ("
          ++ String.intercalate "," (cs.map fun c => "\n" ++ c.name ++ " " ++ c.dataType)
          ++ ")\n" := by
  cases cs with
  | nil => simp [Table.ddl, Table.columnsLoop, String.intercalate]
  | cons c cs =>
    simp only [Table.ddl, Table.columnsLoop, Column.fprintDDL, List.map_cons,
      String.intercalate, columnsLoop_notFirst]
    rw [← intercalate_go_append]
    simp only [String.append_assoc, String.empty_append, Bool.false_eq_true, if_false]

/-- C3: for every table name `n` and column list `cs` (the empty one too),
`Table.Up` makes exactly one call on the connection, an execution of
`"CREATE TABLE " ++ n ++ " (" ++ body ++ ")\n"`, where `body` joins the
entries `"\n" ++ c.name ++ " " ++ c.dataType` of the columns, in declaration
order, with `","`; it returns what the execution answered. For `"name"` with
`Integer "i"`, `Text "t"`, `Boolean "b"` the text is
`"CREATE TABLE name (\ni integer,\nt text,\nb boolean)\n"`. -/
theorem Table.Up_executes_one_create_table (n : String) (cs : List Column) (db : Conn)
    (execErr : Option GoError) :
    ((Table.mk n cs).Up db execErr).1
        = [Event.exec db ("CREATE TABLE " ++ n ++ " ("
            ++ String.intercalate "," (cs.map fun c => "\n" ++ c.name ++ " " ++ c.dataType)
            ++ ")\n")]
      ∧ ((Table.mk n cs).Up db execErr).2 = execErr
      ∧ ((Table.mk "name" [Integer "i", Text "t", Boolean "b"]).Up db execErr).1
        = [Event.exec db "CREATE TABLE name (\ni integer,\nt text,\nb boolean)\n"] := by
  refine ⟨?_, ?_, ?_⟩
  · cases execErr <;> simp [Table.Up, ddl_eq]
  · cases execErr <;> simp [Table.Up]
  · cases execErr <;> simp [Table.Up] <;> decide

/-! ## PostgresConnectionError.Error -/

theorem contains_mid (pre sub post : String) : Contains (pre ++ (sub ++ post)) sub := by
  unfold Contains
  simp only [String.data_append]
  exact ⟨pre.data, post.data, by simp⟩

/-- C6: for every cause `e` and every configured username and password, the
text of `PostgresConnectionError{Err: e}.Error()` contains the cause's
message `e.Error()`, the command
`sudo -u postgres createuser --createdb --pwprompt <username>` and the
command `ALTER USER <username> WITH PASSWORD '<password>' CREATEDB;`. -/
theorem PostgresConnectionError_Error_contains_remediation (cfg : Credentials) (e : GoError) :
    Contains ((GoError.postgresConnection e).Error cfg) (e.Error cfg)
      ∧ Contains ((GoError.postgresConnection e).Error cfg)
          ("sudo -u postgres createuser --createdb --pwprompt " ++ cfg.PostgresUsername)
      ∧ Contains ((GoError.postgresConnection e).Error cfg)
          ("ALTER USER " ++ cfg.PostgresUsername ++ " WITH PASSWORD '"
            ++ cfg.PostgresPassword ++ "' CREATEDB;") := by
  have split1 : "\tsudo -u postgres createuser --createdb --pwprompt "
      = "\t" ++ "sudo -u postgres createuser --createdb --pwprompt " := by decide
  have split2 : "\tsudo -u postgres psql -c \"ALTER USER "
      = "\tsudo -u postgres psql -c \"" ++ "ALTER USER " := by decide
  have split3 : "' CREATEDB;\"\n" = "' CREATEDB;" ++ "\"\n" := by decide
  refine ⟨?_, ?_, ?_⟩
  · simp only [GoError.Error, String.empty_append, String.append_assoc]
    exact contains_mid _ _ _
  · simp only [GoError.Error, String.empty_append]
    rw [split1]
    simp only [String.append_assoc]
    rw [← String.append_assoc "\nConnection to Postgres failed: ",
      ← String.append_assoc _ "\n", ← String.append_assoc _ "Please run the following commands to create the necessary user and grant permissions:",
      ← String.append_assoc _ "\n", ← String.append_assoc _ "\t",
      ← String.append_assoc "sudo -u postgres createuser --createdb --pwprompt "]
    exact contains_mid _ _ _
  · have h : (GoError.postgresConnection e).Error cfg
        = ("\nConnection to Postgres failed: " ++ e.Error cfg ++ "\n"
            ++ "Please run the following commands to create the necessary user and grant permissions:"
            ++ "\n" ++ "\tsudo -u postgres createuser --createdb --pwprompt "
            ++ cfg.PostgresUsername ++ "\n" ++ "\tsudo -u postgres psql -c \"")
          ++ (("ALTER USER " ++ cfg.PostgresUsername ++ " WITH PASSWORD '"
            ++ cfg.PostgresPassword ++ "' CREATEDB;") ++ "\"\n") := by
      simp only [GoError.Error, String.empty_append]
      rw [split2, split3]
      simp only [String.append_assoc]
    rw [h]
    exact contains_mid _ _ _

/-! ## connectToPostgres -/

/-- C7: `connectToPostgres` returns a connection (and no error) exactly when
both `sql.Open` and `Ping` succeed, and that connection is then open. When
the open fails, or the open succeeds and the ping fails, it returns no
connection but a `PostgresConnectionError` whose `Unwrap()` is the cause;
in the ping case the last call made is the `Close` of the opened connection,
which was open until then. After a failed call no connection is open. -/
theorem connectToPostgres_result (cfg : Credentials) (w : ConnectAnswers) :
    ((∃ c, (connectToPostgres cfg w).2 = Except.ok c)
        ↔ (w.openErr = none ∧ w.pingErr = none))
      ∧ (w.openErr = none → w.pingErr = none →
          (connectToPostgres cfg w).2 = Except.ok Conn.mainDB
            ∧ openConns (connectToPostgres cfg w).1 = [Conn.mainDB])
      ∧ (∀ e, w.openErr = some e →
          (connectToPostgres cfg w).2 = Except.error (GoError.postgresConnection e)
            ∧ (GoError.postgresConnection e).Unwrap = some e
            ∧ openConns (connectToPostgres cfg w).1 = [])
      ∧ (∀ e, w.openErr = none → w.pingErr = some e →
          (connectToPostgres cfg w).2 = Except.error (GoError.postgresConnection e)
            ∧ (GoError.postgresConnection e).Unwrap = some e
            ∧ (∃ before, (connectToPostgres cfg w).1 = before ++ [Event.close Conn.mainDB]
                ∧ openConns before = [Conn.mainDB])
            ∧ openConns (connectToPostgres cfg w).1 = []) := by
  obtain ⟨openErr, pingErr⟩ := w
  refine ⟨?_, ?_, ?_, ?_⟩
  · cases openErr <;> cases pingErr <;> simp [connectToPostgres]
  · rintro rfl rfl
    simp [connectToPostgres, openConns, stepConns]
  · rintro e rfl
    simp [connectToPostgres, openConns, stepConns, GoError.Unwrap]
  · rintro e rfl rfl
    refine ⟨by simp [connectToPostgres], by simp [GoError.Unwrap], ?_, ?_⟩
    · exact ⟨[Event.sqlOpen Conn.mainDB (adminConnectionString cfg) true,
        Event.ping Conn.mainDB false], by simp [connectToPostgres],
        by simp [openConns, stepConns]⟩
    · simp [connectToPostgres, openConns, stepConns]

/-- An instance of C7: the open succeeds and the ping fails with
`connection refused`. -/
theorem connectToPostgres_result_witness :
    (connectToPostgres defaultCredentials
        { openErr := none, pingErr := some (GoError.driver "connection refused") }).2
        = Except.error (GoError.postgresConnection (GoError.driver "connection refused"))
      ∧ (GoError.postgresConnection (GoError.driver "connection refused")).Unwrap
        = some (GoError.driver "connection refused")
      ∧ (connectToPostgres defaultCredentials
          { openErr := none, pingErr := some (GoError.driver "connection refused") }).1
        = [Event.sqlOpen Conn.mainDB (adminConnectionString defaultCredentials) true,
            Event.ping Conn.mainDB false, Event.close Conn.mainDB]
      ∧ openConns (connectToPostgres defaultCredentials
          { openErr := none, pingErr := some (GoError.driver "connection refused") }).1
        = [] :=
  ⟨((connectToPostgres_result defaultCredentials
      { openErr := none, pingErr := some (GoError.driver "connection refused") }).2.2.2
      (GoError.driver "connection refused") rfl rfl).1,
    rfl, rfl,
    ((connectToPostgres_result defaultCredentials
      { openErr := none, pingErr := some (GoError.driver "connection refused") }).2.2.2
      (GoError.driver "connection refused") rfl rfl).2.2.2⟩

/-! ## The teardown -/

/-- C1: when the owning test is in a failed state as the teardown runs, the
calls of the teardown are: `Close` on the scoped connection, the report of
that close's failure if it failed, and the log line carrying the database
name. None of them is a `sql.Open` and none executes a statement, so no
administrative connection is opened and no `DROP DATABASE` is executed. -/
theorem teardown_of_failed_test_keeps_database (cfg : Credentials) (testDBName : String)
    (w : TeardownAnswers) (t : T) (hfailed : t.Failed = true) :
    newCalls t (teardown cfg testDBName w t)
        = [Event.close Conn.testDB]
          ++ (match w.closeErr with
              | some err => [Event.errorf "Failed to close test DB connection: %s" [Arg.err err]]
              | none => [])
          ++ [Event.logf "Database left intact: %q" [Arg.str testDBName]]
      ∧ (∀ ev ∈ newCalls t (teardown cfg testDBName w t), ev.isOpen = false ∧ ev.isExec = false)
      ∧ execs (newCalls t (teardown cfg testDBName w t)) = []
      ∧ (teardown cfg testDBName w t).trace = t.trace ++ newCalls t (teardown cfg testDBName w t)
      ∧ (teardown cfg testDBName w t).Failed = true := by
  obtain ⟨closeErr, admin, dropErr⟩ := w
  obtain ⟨failed, cleanups, trace⟩ := t
  simp only [T.Failed] at hfailed
  subst hfailed
  cases closeErr <;>
    simp [teardown, newCalls, T.emit, T.Errorf, T.Logf, T.Failed, execs, Event.isOpen,
      Event.isExec]

/-- An instance of C1: a failed test whose scoped connection closes cleanly. -/
theorem teardown_of_failed_test_keeps_database_witness :
    failedTest.Failed = true
      ∧ newCalls failedTest
          (teardown defaultCredentials "test_00010203_0405_4607_8809_0a0b0c0d0e0f"
            teardownSucceeds failedTest)
        = [Event.close Conn.testDB,
            Event.logf "Database left intact: %q"
              [Arg.str "test_00010203_0405_4607_8809_0a0b0c0d0e0f"]] :=
  ⟨rfl, (teardown_of_failed_test_keeps_database defaultCredentials
      "test_00010203_0405_4607_8809_0a0b0c0d0e0f" teardownSucceeds failedTest rfl).1⟩

/-- C2 as stated fails: the test is passing when the teardown starts and the
server accepts an administrative connection, but closing the scoped connection
fails; the teardown then executes no statement at all, so no `DROP DATABASE`. -/
theorem teardown_close_failure_executes_no_drop :
    T.fresh.Failed = false
      ∧ (connectToPostgres defaultCredentials closeFails.admin).2 = Except.ok Conn.mainDB
      ∧ (newCalls T.fresh
          (teardown defaultCredentials "test_00010203_0405_4607_8809_0a0b0c0d0e0f"
            closeFails T.fresh)).filter Event.isExec = []
      ∧ Event.exec Conn.mainDB "DROP DATABASE test_00010203_0405_4607_8809_0a0b0c0d0e0f;"
          ∉ (teardown defaultCredentials "test_00010203_0405_4607_8809_0a0b0c0d0e0f"
              closeFails T.fresh).trace := by
  refine ⟨rfl, rfl, ?_, ?_⟩
  · simp [teardown, closeFails, newCalls, T.fresh, T.emit, T.Errorf, T.Logf, T.Failed,
      Event.isExec]
  · simp [teardown, closeFails, T.fresh, T.emit, T.Errorf, T.Logf, T.Failed]

/-- C2, amended: when `DB` has handed out a database, the test is passing as
the teardown starts, closing the scoped connection succeeds and an
administrative connection can be obtained, the one statement the teardown
executes is `"DROP DATABASE " ++ name ++ ";"`, on the administrative
connection, where `name` is the name captured by the registered teardown and
used in the one statement `"CREATE DATABASE " ++ name ++ ";"` that `DB`
executed. -/
theorem teardown_of_passed_test_drops_created_database (cfg : Credentials)
    (w : ProvisionAnswers) (t0 : T) (c : Conn) (wt : TeardownAnswers) (t : T)
    (hprovisioned : (DB cfg w t0).2 = some c)
    (hpassed : t.Failed = false)
    (hclose : wt.closeErr = none)
    (hadmin : ∃ conn, (connectToPostgres cfg wt.admin).2 = Except.ok conn) :
    ∃ testDBName,
      (DB cfg w t0).1.cleanups = t0.cleanups ++ [testDBName]
        ∧ (newCalls t0 (DB cfg w t0).1).filter Event.isExec
            = [Event.exec Conn.mainDB ("CREATE DATABASE " ++ testDBName ++ ";")]
        ∧ (newCalls t (teardown cfg testDBName wt t)).filter Event.isExec
            = [Event.exec Conn.mainDB ("DROP DATABASE " ++ testDBName ++ ";")] := by
  obtain ⟨⟨adminOpen, adminPing⟩, entropy, createErr, openErr, pingErr⟩ := w
  obtain ⟨closeErr, ⟨tdOpen, tdPing⟩, dropErr⟩ := wt
  obtain ⟨failed0, cleanups0, trace0⟩ := t0
  obtain ⟨failed, cleanups, trace⟩ := t
  simp only [T.Failed] at hpassed
  simp only at hclose
  subst hpassed hclose
  obtain ⟨conn, hconn⟩ := hadmin
  cases tdOpen <;> cases tdPing <;> simp [connectToPostgres] at hconn
  cases adminOpen <;> cases adminPing <;> cases entropy <;> cases createErr <;>
    cases openErr <;> cases pingErr <;>
    simp [DB, connectToPostgres, generateUUID, T.Helper, T.emit, T.Fatal, T.Fatalf,
      T.Cleanup] at hprovisioned
  rename_i bytes
  refine ⟨testDBNameOf (formatUUID bytes), ?_, ?_, ?_⟩
  · simp [DB, connectToPostgres, generateUUID, T.Helper, T.emit, T.Cleanup]
  · simp [DB, connectToPostgres, generateUUID, T.Helper, T.emit, T.Cleanup, newCalls,
      Event.isExec]
  · cases dropErr <;>
      simp [teardown, connectToPostgres, T.emit, T.Fatalf, T.Failed, newCalls, Event.isExec]

/-- An instance of C2, amended: provisioning and teardown in which everything
succeeds. -/
theorem teardown_of_passed_test_drops_created_database_witness :
    (DB defaultCredentials allSucceed T.fresh).2 = some Conn.testDB
      ∧ T.fresh.Failed = false
      ∧ teardownSucceeds.closeErr = none
      ∧ (∃ conn, (connectToPostgres defaultCredentials teardownSucceeds.admin).2
          = Except.ok conn)
      ∧ ∃ testDBName,
          (DB defaultCredentials allSucceed T.fresh).1.cleanups
              = T.fresh.cleanups ++ [testDBName]
            ∧ (newCalls T.fresh (DB defaultCredentials allSucceed T.fresh).1).filter
                Event.isExec
              = [Event.exec Conn.mainDB ("CREATE DATABASE " ++ testDBName ++ ";")]
            ∧ (newCalls T.fresh
                (teardown defaultCredentials testDBName teardownSucceeds T.fresh)).filter
                Event.isExec
              = [Event.exec Conn.mainDB ("DROP DATABASE " ++ testDBName ++ ";")] :=
  ⟨rfl, rfl, rfl, ⟨Conn.mainDB, rfl⟩,
    teardown_of_passed_test_drops_created_database defaultCredentials allSucceed T.fresh
      Conn.testDB teardownSucceeds T.fresh rfl rfl rfl ⟨Conn.mainDB, rfl⟩⟩

/-- C8 as stated fails: a test that is passing when the teardown starts is
marked failed once the failure to close the scoped connection has been
reported, and its database is not dropped. -/
theorem teardown_close_failure_marks_test_failed :
    T.fresh.Failed = false
      ∧ (teardown defaultCredentials "test_00010203_0405_4607_8809_0a0b0c0d0e0f"
          closeFails T.fresh).Failed = true
      ∧ (teardown defaultCredentials "test_00010203_0405_4607_8809_0a0b0c0d0e0f"
          closeFails T.fresh).trace
        = [Event.close Conn.testDB,
            Event.errorf "Failed to close test DB connection: %s"
              [Arg.err (GoError.driver "sql: connection is busy")],
            Event.logf "Database left intact: %q"
              [Arg.str "test_00010203_0405_4607_8809_0a0b0c0d0e0f"]] := by
  refine ⟨rfl, rfl, ?_⟩
  simp [teardown, closeFails, T.fresh, T.emit, T.Errorf, T.Logf, T.Failed]

/-- C8, amended: when closing the scoped connection fails, the failure is
reported with `Errorf`. The teardown is not stopped by it: it goes on to the
failed-state check. But the report marks the owning test failed, whatever its
outcome was when the teardown started, so the teardown logs the database name
and leaves the database in place: it makes no further call. -/
theorem teardown_close_failure_reported_then_database_kept (cfg : Credentials)
    (testDBName : String) (w : TeardownAnswers) (t : T) (err : GoError)
    (hclose : w.closeErr = some err) :
    newCalls t (teardown cfg testDBName w t)
        = [Event.close Conn.testDB,
            Event.errorf "Failed to close test DB connection: %s" [Arg.err err],
            Event.logf "Database left intact: %q" [Arg.str testDBName]]
      ∧ (teardown cfg testDBName w t).trace = t.trace ++ newCalls t (teardown cfg testDBName w t)
      ∧ (teardown cfg testDBName w t).Failed = true := by
  obtain ⟨closeErr, admin, dropErr⟩ := w
  obtain ⟨failed, cleanups, trace⟩ := t
  simp only at hclose
  subst hclose
  simp [teardown, newCalls, T.emit, T.Errorf, T.Logf, T.Failed]

/-- An instance of C8, amended: the close fails with `sql: connection is busy`. -/
theorem teardown_close_failure_reported_then_database_kept_witness :
    closeFails.closeErr = some (GoError.driver "sql: connection is busy")
      ∧ newCalls T.fresh (teardown defaultCredentials "test_x" closeFails T.fresh)
        = [Event.close Conn.testDB,
            Event.errorf "Failed to close test DB connection: %s"
              [Arg.err (GoError.driver "sql: connection is busy")],
            Event.logf "Database left intact: %q" [Arg.str "test_x"]] :=
  ⟨rfl, (teardown_close_failure_reported_then_database_kept defaultCredentials "test_x"
      closeFails T.fresh (GoError.driver "sql: connection is busy") rfl).1⟩

/-! ## The order of the calls of DB -/

/-- C9 as stated fails: in the run in which everything succeeds, the scoped
connection is opened by the sixth call and the administrative connection is
closed only by the ninth and last call, after the teardown was registered;
after the sixth call both connections are open. -/
theorem DB_closes_admin_connection_last :
    (DB defaultCredentials allSucceed T.fresh).2 = some Conn.testDB
      ∧ (DB defaultCredentials allSucceed T.fresh).1.trace.get? 5
        = some (Event.sqlOpen Conn.testDB
            (testDBConnectionString defaultCredentials
              "test_00010203_0405_4607_8809_0a0b0c0d0e0f") true)
      ∧ (DB defaultCredentials allSucceed T.fresh).1.trace.get? 7
        = some (Event.cleanup "test_00010203_0405_4607_8809_0a0b0c0d0e0f")
      ∧ (DB defaultCredentials allSucceed T.fresh).1.trace.get? 8
        = some (Event.close Conn.mainDB)
      ∧ (DB defaultCredentials allSucceed T.fresh).1.trace.length = 9
      ∧ openConns ((DB defaultCredentials allSucceed T.fresh).1.trace.take 6)
        = [Conn.mainDB, Conn.testDB] := by
  decide

/-- C9, amended: in every provisioning run that hands out a database the
calls are made one after the other in this order: open and ping of the
administrative connection, entropy read, `CREATE DATABASE`, open and ping of
the scoped connection, registration of the teardown, and last the close of
the administrative connection (the deferred call, run as `DB` returns). The
administrative connection is therefore open together with the scoped one from
the open of the scoped one until `DB` returns; afterwards only the scoped
connection is open. In every run that obtained an administrative connection,
whatever its outcome, the close of that connection is the last call. -/
theorem DB_calls_in_order (cfg : Credentials) (w : ProvisionAnswers) (t : T) :
    (∀ c, (DB cfg w t).2 = some c →
      ∃ bytes, w.entropy = Except.ok bytes
        ∧ c = Conn.testDB
        ∧ newCalls t (DB cfg w t).1
          = [Event.helper,
              Event.sqlOpen Conn.mainDB (adminConnectionString cfg) true,
              Event.ping Conn.mainDB true,
              Event.randRead,
              Event.exec Conn.mainDB
                ("CREATE DATABASE " ++ testDBNameOf (formatUUID bytes) ++ ";"),
              Event.sqlOpen Conn.testDB
                (testDBConnectionString cfg (testDBNameOf (formatUUID bytes))) true,
              Event.ping Conn.testDB true,
              Event.cleanup (testDBNameOf (formatUUID bytes)),
              Event.close Conn.mainDB]
        ∧ openConns ((newCalls t (DB cfg w t).1).take 5) = [Conn.mainDB]
        ∧ openConns ((newCalls t (DB cfg w t).1).take 6) = [Conn.mainDB, Conn.testDB]
        ∧ openConns ((newCalls t (DB cfg w t).1).take 7) = [Conn.mainDB, Conn.testDB]
        ∧ openConns ((newCalls t (DB cfg w t).1).take 8) = [Conn.mainDB, Conn.testDB]
        ∧ openConns (newCalls t (DB cfg w t).1) = [Conn.testDB])
      ∧ ((DB cfg w t).1.trace = t.trace ++ newCalls t (DB cfg w t).1)
      ∧ ((∃ conn, (connectToPostgres cfg w.admin).2 = Except.ok conn) →
          (newCalls t (DB cfg w t).1).getLast? = some (Event.close Conn.mainDB)) := by
  obtain ⟨⟨adminOpen, adminPing⟩, entropy, createErr, openErr, pingErr⟩ := w
  obtain ⟨failed, cleanups, trace⟩ := t
  refine ⟨?_, ?_, ?_⟩
  · intro c hc
    cases adminOpen <;> cases adminPing <;> cases entropy <;> cases createErr <;>
      cases openErr <;> cases pingErr <;>
      simp [DB, connectToPostgres, generateUUID, T.Helper, T.emit, T.Fatal, T.Fatalf,
        T.Cleanup] at hc
    rename_i bytes
    refine ⟨bytes, rfl, hc.symm, ?_⟩
    simp [DB, connectToPostgres, generateUUID, T.Helper, T.emit, T.Cleanup, newCalls,
      openConns, stepConns]
  · cases adminOpen <;> cases adminPing <;> cases entropy <;> cases createErr <;>
      cases openErr <;> cases pingErr <;>
      simp [DB, connectToPostgres, generateUUID, T.Helper, T.emit, T.Fatal, T.Fatalf,
        T.Cleanup, newCalls]
  · rintro ⟨conn, hconn⟩
    cases adminOpen <;> cases adminPing <;> simp [connectToPostgres] at hconn
    cases entropy <;> cases createErr <;> cases openErr <;> cases pingErr <;>
      simp [DB, connectToPostgres, generateUUID, T.Helper, T.emit, T.Fatal, T.Fatalf,
        T.Cleanup, newCalls]

/-- An instance of C9, amended: the run in which everything succeeds. -/
theorem DB_calls_in_order_witness :
    (DB defaultCredentials allSucceed T.fresh).2 = some Conn.testDB
      ∧ (newCalls T.fresh (DB defaultCredentials allSucceed T.fresh).1).getLast?
        = some (Event.close Conn.mainDB) :=
  ⟨rfl, (DB_calls_in_order defaultCredentials allSucceed T.fresh).2.2 ⟨Conn.mainDB, rfl⟩⟩

/-! ## generateUUID -/

set_option maxRecDepth 100000

theorem byte_digits : ∀ b < 256,
    ldigits.getD (b >>> 4) '0' = Nat.digitChar (b / 16)
      ∧ ldigits.getD (b &&& 0xF) '0' = Nat.digitChar (b % 16) := by
  decide

theorem nibble_isLowerHexDigit : ∀ d < 16, IsLowerHexDigit (Nat.digitChar d) := by
  decide

theorem version_bits : ∀ b < 256, (b &&& 0x0F) ||| 0x40 = b % 16 + 64 := by
  decide

theorem variant_bits : ∀ b < 256, (b &&& 0x3F) ||| 0x80 = b % 64 + 128 := by
  decide

theorem fmtSbx_eq_hexPair (bs : List Nat) (h : ∀ b ∈ bs, b < 256) :
    fmtSbx bs = bs.flatMap hexPair := by
  induction bs with
  | nil => rfl
  | cons b bs ih =>
    have hb := byte_digits b (h b (List.mem_cons_self _ _))
    have ih := ih (fun x hx => h x (List.mem_cons_of_mem _ hx))
    simp only [fmtSbx, List.flatMap_cons, hexPair] at ih ⊢
    rw [ih, hb.1, hb.2]

theorem length_sixteen (bs : List Nat) (h : bs.length = 16) :
    ∃ b0 b1 b2 b3 b4 b5 b6 b7 b8 b9 b10 b11 b12 b13 b14 b15,
      bs = [b0, b1, b2, b3, b4, b5, b6, b7, b8, b9, b10, b11, b12, b13, b14, b15] := by
  match bs, h with
  | [b0, b1, b2, b3, b4, b5, b6, b7, b8, b9, b10, b11, b12, b13, b14, b15], _ =>
    exact ⟨b0, b1, b2, b3, b4, b5, b6, b7, b8, b9, b10, b11, b12, b13, b14, b15, rfl⟩

theorem formatUUID_sixteen (b0 b1 b2 b3 b4 b5 b6 b7 b8 b9 b10 b11 b12 b13 b14 b15 : Nat)
    (h : ∀ b ∈ [b0, b1, b2, b3, b4, b5, b6, b7, b8, b9, b10, b11, b12, b13, b14, b15],
      b < 256) :
    formatUUID [b0, b1, b2, b3, b4, b5, b6, b7, b8, b9, b10, b11, b12, b13, b14, b15]
      = String.mk (hexPair b0 ++ hexPair b1 ++ hexPair b2 ++ hexPair b3 ++ ['_']
          ++ hexPair b4 ++ hexPair b5 ++ ['_']
          ++ hexPair (b6 % 16 + 64) ++ hexPair b7 ++ ['_']
          ++ hexPair (b8 % 64 + 128) ++ hexPair b9 ++ ['_']
          ++ hexPair b10 ++ hexPair b11 ++ hexPair b12 ++ hexPair b13 ++ hexPair b14
          ++ hexPair b15) := by
  simp only [List.mem_cons, List.mem_singleton, forall_eq_or_imp, forall_eq,
    List.not_mem_nil, false_implies, implies_true, and_true] at h
  obtain ⟨h0, h1, h2, h3, h4, h5, h6, h7, h8, h9, h10, h11, h12, h13, h14, h15⟩ := h
  have e : formatUUID [b0, b1, b2, b3, b4, b5, b6, b7, b8, b9, b10, b11, b12, b13, b14, b15]
      = String.mk (fmtSbx [b0, b1, b2, b3] ++ ['_'] ++ fmtSbx [b4, b5] ++ ['_']
          ++ fmtSbx [(b6 &&& 0x0F) ||| 0x40, b7] ++ ['_']
          ++ fmtSbx [(b8 &&& 0x3F) ||| 0x80, b9] ++ ['_']
          ++ fmtSbx [b10, b11, b12, b13, b14, b15]) := rfl
  have h6m : b6 % 16 + 64 < 256 := by omega
  have h8m : b8 % 64 + 128 < 256 := by omega
  rw [e, version_bits b6 h6, variant_bits b8 h8,
    fmtSbx_eq_hexPair [b0, b1, b2, b3] (by simp; omega),
    fmtSbx_eq_hexPair [b4, b5] (by simp; omega),
    fmtSbx_eq_hexPair [b6 % 16 + 64, b7] (by simp; omega),
    fmtSbx_eq_hexPair [b8 % 64 + 128, b9] (by simp; omega),
    fmtSbx_eq_hexPair [b10, b11, b12, b13, b14, b15] (by simp; omega)]
  simp [List.flatMap_cons, List.append_assoc]

theorem hexPair_digits (b : Nat) (h : b < 256) : ∀ c ∈ hexPair b, IsLowerHexDigit c := by
  intro c hc
  simp only [hexPair, List.mem_cons, List.mem_singleton, List.not_mem_nil, or_false] at hc
  rcases hc with rfl | rfl
  · exact nibble_isLowerHexDigit _ (by omega)
  · exact nibble_isLowerHexDigit _ (by omega)

theorem formatUUID_chars (bs : List Nat) (h : IsEntropy bs) :
    (formatUUID bs).data.length = 36
      ∧ ∀ c ∈ (formatUUID bs).data, IsLowerHexDigit c ∨ c = '_' := by
  obtain ⟨hlen, hbytes⟩ := h
  obtain ⟨b0, b1, b2, b3, b4, b5, b6, b7, b8, b9, b10, b11, b12, b13, b14, b15, rfl⟩ :=
    length_sixteen bs hlen
  rw [formatUUID_sixteen b0 b1 b2 b3 b4 b5 b6 b7 b8 b9 b10 b11 b12 b13 b14 b15 hbytes]
  simp only [List.mem_cons, List.mem_singleton, forall_eq_or_imp, forall_eq,
    List.not_mem_nil, false_implies, implies_true, and_true] at hbytes
  obtain ⟨h0, h1, h2, h3, h4, h5, h6, h7, h8, h9, h10, h11, h12, h13, h14, h15⟩ := hbytes
  have h6m : b6 % 16 + 64 < 256 := by omega
  have h8m : b8 % 64 + 128 < 256 := by omega
  refine ⟨by simp [hexPair], ?_⟩
  intro c hc
  simp only [List.mem_append, List.mem_singleton] at hc
  by_cases hu : c = '_'
  · exact Or.inr hu
  · left
    simp only [hu, or_false] at hc
    rcases hc with (((((((((((((((hc | hc) | hc) | hc) | hc) | hc) | hc) | hc) | hc) | hc)
      | hc) | hc) | hc) | hc) | hc) | hc)
    all_goals exact hexPair_digits _ (by assumption) c hc

theorem lowerHexDigit_isIdentChar (c : Char) (h : IsLowerHexDigit c) : IsIdentChar c := by
  rcases h with ⟨h1, h2⟩ | ⟨h1, h2⟩
  · exact Or.inr (Or.inl ⟨h1, h2⟩)
  · exact Or.inl ⟨h1, le_trans h2 (by decide)⟩

theorem identChar_utf8Size (c : Char) (h : IsIdentChar c) : c.utf8Size = 1 := by
  have hle : c ≤ 'z' := by
    rcases h with ⟨_, h2⟩ | ⟨_, h2⟩ | rfl
    · exact h2
    · exact le_trans h2 (by decide)
    · decide
  have hv : c.val.toNat ≤ 122 := hle
  have : c.val ≤ 127 := by
    show c.val.toNat ≤ 127
    omega
  simp [Char.utf8Size, this]

/-- C4: for every 16-byte output of the entropy source `generateUUID`
succeeds, and the identifier is five groups joined by the character `_`: the
groups print bytes 0-3, 4-5, 6-7, 8-9 and 10-15 (byte 6 with its high nibble
set to 4, byte 8 with its top two bits set to 10), two lowercase hexadecimal
digits per byte, a leading zero included; the groups have 8, 4, 4, 4 and 12
characters, the identifier 36, and each character is a lowercase
hexadecimal digit or `_`. -/
theorem generateUUID_grouped_hex (bs : List Nat) (h : IsEntropy bs) :
    ∃ id g1 g2 g3 g4 g5,
      generateUUID (Except.ok bs) = Except.ok id
        ∧ id.data = g1 ++ ['_'] ++ g2 ++ ['_'] ++ g3 ++ ['_'] ++ g4 ++ ['_'] ++ g5
        ∧ g1 = (bs.take 4).flatMap hexPair
        ∧ g2 = ((bs.drop 4).take 2).flatMap hexPair
        ∧ g3 = hexPair (bs.getD 6 0 % 16 + 64) ++ hexPair (bs.getD 7 0)
        ∧ g4 = hexPair (bs.getD 8 0 % 64 + 128) ++ hexPair (bs.getD 9 0)
        ∧ g5 = (bs.drop 10).flatMap hexPair
        ∧ g1.length = 8 ∧ g2.length = 4 ∧ g3.length = 4 ∧ g4.length = 4 ∧ g5.length = 12
        ∧ (∀ c ∈ g1 ++ g2 ++ g3 ++ g4 ++ g5, IsLowerHexDigit c)
        ∧ id.length = 36
        ∧ (∀ c ∈ id.data, IsLowerHexDigit c ∨ c = '_') := by
  obtain ⟨hlen, hbytes⟩ := h
  obtain ⟨b0, b1, b2, b3, b4, b5, b6, b7, b8, b9, b10, b11, b12, b13, b14, b15, rfl⟩ :=
    length_sixteen bs hlen
  have e := formatUUID_sixteen b0 b1 b2 b3 b4 b5 b6 b7 b8 b9 b10 b11 b12 b13 b14 b15 hbytes
  simp only [List.mem_cons, List.mem_singleton, forall_eq_or_imp, forall_eq,
    List.not_mem_nil, false_implies, implies_true, and_true] at hbytes
  obtain ⟨h0, h1, h2, h3, h4, h5, h6, h7, h8, h9, h10, h11, h12, h13, h14, h15⟩ := hbytes
  have h6m : b6 % 16 + 64 < 256 := by omega
  have h8m : b8 % 64 + 128 < 256 := by omega
  have hex : ∀ c ∈ hexPair b0 ++ hexPair b1 ++ hexPair b2 ++ hexPair b3
        ++ (hexPair b4 ++ hexPair b5)
        ++ (hexPair (b6 % 16 + 64) ++ hexPair b7)
        ++ (hexPair (b8 % 64 + 128) ++ hexPair b9)
        ++ (hexPair b10 ++ hexPair b11 ++ hexPair b12 ++ hexPair b13 ++ hexPair b14
          ++ hexPair b15), IsLowerHexDigit c := by
    intro c hc
    simp only [List.mem_append] at hc
    rcases hc with ((((((hc | hc) | hc) | hc) | (hc | hc)) | (hc | hc)) | (hc | hc))
      | (((((hc | hc) | hc) | hc) | hc) | hc)
    all_goals first
      | exact hexPair_digits _ (by assumption) c hc
  refine ⟨_, hexPair b0 ++ hexPair b1 ++ hexPair b2 ++ hexPair b3,
    hexPair b4 ++ hexPair b5, hexPair (b6 % 16 + 64) ++ hexPair b7,
    hexPair (b8 % 64 + 128) ++ hexPair b9,
    hexPair b10 ++ hexPair b11 ++ hexPair b12 ++ hexPair b13 ++ hexPair b14 ++ hexPair b15,
    by rw [generateUUID, e], by simp [List.append_assoc], by simp, by simp, by simp, by simp,
    by simp, by simp [hexPair], by simp [hexPair], by simp [hexPair], by simp [hexPair],
    by simp [hexPair], hex, by simp [String.length, hexPair], ?_⟩
  intro c hc
  simp only [List.mem_append, List.mem_singleton] at hc
  simp only [List.mem_append] at hex
  by_cases hu : c = '_'
  · exact Or.inr hu
  · exact Or.inl (hex c (by tauto))

/-- An instance of C4: the entropy source writes the bytes `0, 1, ..., 15`. -/
theorem generateUUID_grouped_hex_witness :
    IsEntropy (List.range 16)
      ∧ ∃ id, generateUUID (Except.ok (List.range 16)) = Except.ok id ∧ id.length = 36
          ∧ ∀ c ∈ id.data, IsLowerHexDigit c ∨ c = '_' :=
  ⟨by decide,
    match generateUUID_grouped_hex (List.range 16) (by decide) with
    | ⟨id, _, _, _, _, _, hid, _, _, _, _, _, _, _, _, _, _, _, _, hlen, hall⟩ =>
      ⟨id, hid, hlen, hall⟩⟩

theorem utf8ByteSize_go_identChars (l : List Char) (h : ∀ c ∈ l, IsIdentChar c) :
    String.utf8ByteSize.go l = l.length := by
  induction l with
  | nil => rfl
  | cons c cs ih =>
    simp only [String.utf8ByteSize.go, List.length_cons]
    rw [ih (fun x hx => h x (List.mem_cons_of_mem _ hx)),
      identChar_utf8Size c (h c (List.mem_cons_self _ _))]

/-- C5: for every identifier `generateUUID` returns, the name built at
`testdb.go:82` is `"test_"` followed by the identifier; it has 41 characters
and 41 bytes, within the limit of 63; it begins with a lowercase letter; each
of its characters is a lowercase letter, a digit or `_`. It is the name `DB`
puts into its `CREATE DATABASE` statement whenever it has an administrative
connection and this identifier. -/
theorem testDBName_is_unquoted_identifier (bs : List Nat) (id : String)
    (h : IsEntropy bs) (hid : generateUUID (Except.ok bs) = Except.ok id) :
    testDBNameOf id = "test_" ++ id
      ∧ (testDBNameOf id).length = 41
      ∧ (testDBNameOf id).utf8ByteSize = 41
      ∧ (testDBNameOf id).utf8ByteSize ≤ 63
      ∧ (∃ c rest, (testDBNameOf id).data = c :: rest ∧ 'a' ≤ c ∧ c ≤ 'z')
      ∧ (∀ c ∈ (testDBNameOf id).data, IsIdentChar c)
      ∧ (∀ (cfg : Credentials) (w : ProvisionAnswers) (t : T),
          w.entropy = Except.ok bs →
          (∃ conn, (connectToPostgres cfg w.admin).2 = Except.ok conn) →
          Event.exec Conn.mainDB ("CREATE DATABASE " ++ ("test_" ++ id) ++ ";")
            ∈ newCalls t (DB cfg w t).1) := by
  simp only [generateUUID, Except.ok.injEq] at hid
  subst hid
  obtain ⟨hlen, hchars⟩ := formatUUID_chars bs h
  have hdata : (testDBNameOf (formatUUID bs)).data
      = 't' :: 'e' :: 's' :: 't' :: '_' :: (formatUUID bs).data := rfl
  have hident : ∀ c ∈ (testDBNameOf (formatUUID bs)).data, IsIdentChar c := by
    intro c hc
    rw [hdata] at hc
    simp only [List.mem_cons] at hc
    rcases hc with rfl | rfl | rfl | rfl | rfl | hc
    · decide
    · decide
    · decide
    · decide
    · decide
    · rcases hchars c hc with hx | rfl
      · exact lowerHexDigit_isIdentChar c hx
      · decide
  have hsize : (testDBNameOf (formatUUID bs)).utf8ByteSize = 41 := by
    show String.utf8ByteSize.go (testDBNameOf (formatUUID bs)).data = 41
    rw [utf8ByteSize_go_identChars _ hident, hdata]
    simp [hlen]
  refine ⟨rfl, ?_, hsize, by omega, ⟨'t', _, hdata, by decide, by decide⟩, hident, ?_⟩
  · show (testDBNameOf (formatUUID bs)).data.length = 41
    rw [hdata]
    simp [hlen]
  · intro cfg w t hw hadmin
    obtain ⟨⟨adminOpen, adminPing⟩, entropy, createErr, openErr, pingErr⟩ := w
    obtain ⟨failed, cleanups, trace⟩ := t
    simp only at hw
    subst hw
    obtain ⟨conn, hconn⟩ := hadmin
    cases adminOpen <;> cases adminPing <;> simp [connectToPostgres] at hconn
    cases createErr <;> cases openErr <;> cases pingErr <;>
      simp [DB, connectToPostgres, generateUUID, testDBNameOf, T.Helper, T.emit, T.Fatal,
        T.Fatalf, T.Cleanup, newCalls]

/-- An instance of C5: the entropy source writes the bytes `0, 1, ..., 15`. -/
theorem testDBName_is_unquoted_identifier_witness :
    IsEntropy (List.range 16)
      ∧ generateUUID (Except.ok (List.range 16))
        = Except.ok "00010203_0405_4607_8809_0a0b0c0d0e0f"
      ∧ testDBNameOf "00010203_0405_4607_8809_0a0b0c0d0e0f"
        = "test_" ++ "00010203_0405_4607_8809_0a0b0c0d0e0f"
      ∧ (testDBNameOf "00010203_0405_4607_8809_0a0b0c0d0e0f").length = 41
      ∧ (∀ c ∈ (testDBNameOf "00010203_0405_4607_8809_0a0b0c0d0e0f").data, IsIdentChar c) :=
  ⟨by decide, rfl,
    (testDBName_is_unquoted_identifier (List.range 16) "00010203_0405_4607_8809_0a0b0c0d0e0f"
      (by decide) rfl).1,
    (testDBName_is_unquoted_identifier (List.range 16) "00010203_0405_4607_8809_0a0b0c0d0e0f"
      (by decide) rfl).2.1,
    (testDBName_is_unquoted_identifier (List.range 16) "00010203_0405_4607_8809_0a0b0c0d0e0f"
      (by decide) rfl).2.2.2.2.2.1⟩

/-! ## generateUUID keeps the retained bits apart -/

theorem digitChar_injective : ∀ i < 16, ∀ j < 16,
    Nat.digitChar i = Nat.digitChar j → i = j := by
  decide

theorem hexPair_injective (x y : Nat) (hx : x < 256) (hy : y < 256)
    (h : hexPair x = hexPair y) : x = y := by
  simp only [hexPair, List.cons.injEq, and_true] at h
  have h1 := digitChar_injective (x / 16) (by omega) (y / 16) (by omega) h.1
  have h2 := digitChar_injective (x % 16) (by omega) (y % 16) (by omega) h.2
  omega

theorem mod_two_pow_eq_iff_testBit (x y j : Nat) :
    x % 2 ^ j = y % 2 ^ j ↔ ∀ k < j, x.testBit k = y.testBit k := by
  constructor
  · intro h k hk
    have hx := Nat.testBit_mod_two_pow x j k
    have hy := Nat.testBit_mod_two_pow y j k
    rw [h] at hx
    simp only [hk, decide_True, Bool.true_and] at hx hy
    rw [← hx, ← hy]
  · intro h
    apply Nat.eq_of_testBit_eq
    intro k
    rw [Nat.testBit_mod_two_pow, Nat.testBit_mod_two_pow]
    by_cases hk : k < j
    · simp [hk, h k hk]
    · simp [hk]

theorem byte_eq_iff_testBit (x y : Nat) (hx : x < 256) (hy : y < 256) :
    x = y ↔ ∀ k < 8, x.testBit k = y.testBit k := by
  have h := mod_two_pow_eq_iff_testBit x y 8
  have ex : x % 2 ^ 8 = x := Nat.mod_eq_of_lt (by omega)
  have ey : y % 2 ^ 8 = y := Nat.mod_eq_of_lt (by omega)
  rw [ex, ey] at h
  exact h

theorem testDBNameOf_injective (x y : String) : testDBNameOf x = testDBNameOf y ↔ x = y := by
  constructor
  · intro h
    have hd := congrArg String.data h
    simp only [testDBNameOf, String.data_append] at hd
    exact String.ext ((List.append_right_inj _).1 hd)
  · rintro rfl
    rfl

theorem hexPair_append_injective (x y : Nat) (hx : x < 256) (hy : y < 256)
    (r s : List Char) (h : hexPair x ++ r = hexPair y ++ s) : x = y ∧ r = s := by
  have hs := List.append_inj h (by simp [hexPair])
  exact ⟨hexPair_injective x y hx hy hs.1, hs.2⟩

theorem hexGroups_injective (x0 x1 x2 x3 x4 x5 x6 x7 x8 x9 x10 x11 x12 x13 x14 x15 : Nat)
    (y0 y1 y2 y3 y4 y5 y6 y7 y8 y9 y10 y11 y12 y13 y14 y15 : Nat)
    (hx : ∀ x ∈ [x0, x1, x2, x3, x4, x5, x6, x7, x8, x9, x10, x11, x12, x13, x14, x15], x < 256)
    (hy : ∀ y ∈ [y0, y1, y2, y3, y4, y5, y6, y7, y8, y9, y10, y11, y12, y13, y14, y15], y < 256)
    (h : String.mk (hexPair x0 ++ hexPair x1 ++ hexPair x2 ++ hexPair x3 ++ ['_']
          ++ hexPair x4 ++ hexPair x5 ++ ['_']
          ++ hexPair x6 ++ hexPair x7 ++ ['_']
          ++ hexPair x8 ++ hexPair x9 ++ ['_']
          ++ hexPair x10 ++ hexPair x11 ++ hexPair x12 ++ hexPair x13 ++ hexPair x14
          ++ hexPair x15)
      = String.mk (hexPair y0 ++ hexPair y1 ++ hexPair y2 ++ hexPair y3 ++ ['_']
          ++ hexPair y4 ++ hexPair y5 ++ ['_']
          ++ hexPair y6 ++ hexPair y7 ++ ['_']
          ++ hexPair y8 ++ hexPair y9 ++ ['_']
          ++ hexPair y10 ++ hexPair y11 ++ hexPair y12 ++ hexPair y13 ++ hexPair y14
          ++ hexPair y15)) :
    [x0, x1, x2, x3, x4, x5, x6, x7, x8, x9, x10, x11, x12, x13, x14, x15]
      = [y0, y1, y2, y3, y4, y5, y6, y7, y8, y9, y10, y11, y12, y13, y14, y15] := by
  simp only [List.mem_cons, List.mem_singleton, forall_eq_or_imp, forall_eq,
    List.not_mem_nil, false_implies, implies_true, and_true] at hx hy
  obtain ⟨hx0, hx1, hx2, hx3, hx4, hx5, hx6, hx7, hx8, hx9, hx10, hx11, hx12, hx13, hx14, hx15⟩ := hx
  obtain ⟨hy0, hy1, hy2, hy3, hy4, hy5, hy6, hy7, hy8, hy9, hy10, hy11, hy12, hy13, hy14, hy15⟩ := hy
  have h := congrArg String.data h
  simp only [List.append_assoc] at h
  obtain ⟨e0, h⟩ := hexPair_append_injective x0 y0 hx0 hy0 _ _ h
  obtain ⟨e1, h⟩ := hexPair_append_injective x1 y1 hx1 hy1 _ _ h
  obtain ⟨e2, h⟩ := hexPair_append_injective x2 y2 hx2 hy2 _ _ h
  obtain ⟨e3, h⟩ := hexPair_append_injective x3 y3 hx3 hy3 _ _ h
  have h := (List.append_right_inj _).1 h
  obtain ⟨e4, h⟩ := hexPair_append_injective x4 y4 hx4 hy4 _ _ h
  obtain ⟨e5, h⟩ := hexPair_append_injective x5 y5 hx5 hy5 _ _ h
  have h := (List.append_right_inj _).1 h
  obtain ⟨e6, h⟩ := hexPair_append_injective x6 y6 hx6 hy6 _ _ h
  obtain ⟨e7, h⟩ := hexPair_append_injective x7 y7 hx7 hy7 _ _ h
  have h := (List.append_right_inj _).1 h
  obtain ⟨e8, h⟩ := hexPair_append_injective x8 y8 hx8 hy8 _ _ h
  obtain ⟨e9, h⟩ := hexPair_append_injective x9 y9 hx9 hy9 _ _ h
  have h := (List.append_right_inj _).1 h
  obtain ⟨e10, h⟩ := hexPair_append_injective x10 y10 hx10 hy10 _ _ h
  obtain ⟨e11, h⟩ := hexPair_append_injective x11 y11 hx11 hy11 _ _ h
  obtain ⟨e12, h⟩ := hexPair_append_injective x12 y12 hx12 hy12 _ _ h
  obtain ⟨e13, h⟩ := hexPair_append_injective x13 y13 hx13 hy13 _ _ h
  obtain ⟨e14, h⟩ := hexPair_append_injective x14 y14 hx14 hy14 _ _ h
  have e15 := hexPair_injective x15 y15 hx15 hy15 h
  rw [e0, e1, e2, e3, e4, e5, e6, e7, e8, e9, e10, e11, e12, e13, e14, e15]

theorem formatUUID_eq_sixteen (a0 a1 a2 a3 a4 a5 a6 a7 a8 a9 a10 a11 a12 a13 a14 a15 : Nat)
    (b0 b1 b2 b3 b4 b5 b6 b7 b8 b9 b10 b11 b12 b13 b14 b15 : Nat)
    (ha : ∀ x ∈ [a0, a1, a2, a3, a4, a5, a6, a7, a8, a9, a10, a11, a12, a13, a14, a15], x < 256)
    (hb : ∀ x ∈ [b0, b1, b2, b3, b4, b5, b6, b7, b8, b9, b10, b11, b12, b13, b14, b15], x < 256) :
    formatUUID [a0, a1, a2, a3, a4, a5, a6, a7, a8, a9, a10, a11, a12, a13, a14, a15]
        = formatUUID [b0, b1, b2, b3, b4, b5, b6, b7, b8, b9, b10, b11, b12, b13, b14, b15]
      ↔ (a0 = b0 ∧ a1 = b1 ∧ a2 = b2 ∧ a3 = b3 ∧ a4 = b4 
        ∧ a5 = b5 ∧ a6 % 16 = b6 % 16 ∧ a7 = b7 ∧ a8 % 64 = b8 % 64
        ∧ a9 = b9 ∧ a10 = b10 ∧ a11 = b11 ∧ a12 = b12
        ∧ a13 = b13 ∧ a14 = b14 ∧ a15 = b15) := by
  rw [formatUUID_sixteen a0 a1 a2 a3 a4 a5 a6 a7 a8 a9 a10 a11 a12 a13 a14 a15 ha, formatUUID_sixteen b0 b1 b2 b3 b4 b5 b6 b7 b8 b9 b10 b11 b12 b13 b14 b15 hb]
  have ha2 := ha
  have hb2 := hb
  simp only [List.mem_cons, List.mem_singleton, forall_eq_or_imp, forall_eq,
    List.not_mem_nil, false_implies, implies_true, and_true] at ha2 hb2
  obtain ⟨ha0, ha1, ha2, ha3, ha4, ha5, ha6, ha7, ha8, ha9, ha10, ha11, ha12, ha13, ha14, ha15⟩ := ha2
  obtain ⟨hb0, hb1, hb2, hb3, hb4, hb5, hb6, hb7, hb8, hb9, hb10, hb11, hb12, hb13, hb14, hb15⟩ := hb2
  constructor
  · intro h
    have hl := hexGroups_injective a0 a1 a2 a3 a4 a5 (a6 % 16 + 64) a7 (a8 % 64 + 128) a9 a10 a11
      a12 a13 a14 a15 b0 b1 b2 b3 b4 b5 (b6 % 16 + 64) b7 (b8 % 64 + 128) b9 b10 b11 b12 b13
      b14 b15
      (by simp only [List.mem_cons, List.mem_singleton, forall_eq_or_imp, forall_eq,
            List.not_mem_nil, false_implies, implies_true, and_true]
          omega)
      (by simp only [List.mem_cons, List.mem_singleton, forall_eq_or_imp, forall_eq,
            List.not_mem_nil, false_implies, implies_true, and_true]
          omega) h
    simp only [List.cons.injEq, and_true] at hl
    omega
  · rintro ⟨e0, e1, e2, e3, e4, e5, e6, e7, e8, e9, e10, e11, e12, e13, e14, e15⟩
    subst e0 e1 e2 e3 e4 e5 e7 e9 e10 e11 e12 e13 e14 e15
    rw [e6, e8]

theorem agree_sixteen (a0 a1 a2 a3 a4 a5 a6 a7 a8 a9 a10 a11 a12 a13 a14 a15 : Nat)
    (b0 b1 b2 b3 b4 b5 b6 b7 b8 b9 b10 b11 b12 b13 b14 b15 : Nat)
    (ha : ∀ x ∈ [a0, a1, a2, a3, a4, a5, a6, a7, a8, a9, a10, a11, a12, a13, a14, a15], x < 256)
    (hb : ∀ x ∈ [b0, b1, b2, b3, b4, b5, b6, b7, b8, b9, b10, b11, b12, b13, b14, b15], x < 256) :
    AgreeOnRetainedBits [a0, a1, a2, a3, a4, a5, a6, a7, a8, a9, a10, a11, a12, a13, a14, a15]
        [b0, b1, b2, b3, b4, b5, b6, b7, b8, b9, b10, b11, b12, b13, b14, b15]
      ↔ (a0 = b0 ∧ a1 = b1 ∧ a2 = b2 ∧ a3 = b3 ∧ a4 = b4 
        ∧ a5 = b5 ∧ a6 % 16 = b6 % 16 ∧ a7 = b7 ∧ a8 % 64 = b8 % 64
        ∧ a9 = b9 ∧ a10 = b10 ∧ a11 = b11 ∧ a12 = b12
        ∧ a13 = b13 ∧ a14 = b14 ∧ a15 = b15) := by
  simp only [List.mem_cons, List.mem_singleton, forall_eq_or_imp, forall_eq,
    List.not_mem_nil, false_implies, implies_true, and_true] at ha hb
  obtain ⟨ha0, ha1, ha2, ha3, ha4, ha5, ha6, ha7, ha8, ha9, ha10, ha11, ha12, ha13, ha14, ha15⟩ := ha
  obtain ⟨hb0, hb1, hb2, hb3, hb4, hb5, hb6, hb7, hb8, hb9, hb10, hb11, hb12, hb13, hb14, hb15⟩ := hb
  constructor
  · intro h
    refine ⟨?_, ?_, ?_, ?_, ?_, ?_, ?_, ?_, ?_, ?_, ?_, ?_, ?_, ?_, ?_, ?_⟩
    · exact (byte_eq_iff_testBit a0 b0 ha0 hb0).2 (fun k hk =>
        h 0 (by omega) k hk (by omega) (by omega))
    · exact (byte_eq_iff_testBit a1 b1 ha1 hb1).2 (fun k hk =>
        h 1 (by omega) k hk (by omega) (by omega))
    · exact (byte_eq_iff_testBit a2 b2 ha2 hb2).2 (fun k hk =>
        h 2 (by omega) k hk (by omega) (by omega))
    · exact (byte_eq_iff_testBit a3 b3 ha3 hb3).2 (fun k hk =>
        h 3 (by omega) k hk (by omega) (by omega))
    · exact (byte_eq_iff_testBit a4 b4 ha4 hb4).2 (fun k hk =>
        h 4 (by omega) k hk (by omega) (by omega))
    · exact (byte_eq_iff_testBit a5 b5 ha5 hb5).2 (fun k hk =>
        h 5 (by omega) k hk (by omega) (by omega))
    · exact (mod_two_pow_eq_iff_testBit a6 b6 4).2 (fun k hk =>
        h 6 (by omega) k (by omega) (fun _ => hk) (by omega))
    · exact (byte_eq_iff_testBit a7 b7 ha7 hb7).2 (fun k hk =>
        h 7 (by omega) k hk (by omega) (by omega))
    · exact (mod_two_pow_eq_iff_testBit a8 b8 6).2 (fun k hk =>
        h 8 (by omega) k (by omega) (by omega) (fun _ => hk))
    · exact (byte_eq_iff_testBit a9 b9 ha9 hb9).2 (fun k hk =>
        h 9 (by omega) k hk (by omega) (by omega))
    · exact (byte_eq_iff_testBit a10 b10 ha10 hb10).2 (fun k hk =>
        h 10 (by omega) k hk (by omega) (by omega))
    · exact (byte_eq_iff_testBit a11 b11 ha11 hb11).2 (fun k hk =>
        h 11 (by omega) k hk (by omega) (by omega))
    · exact (byte_eq_iff_testBit a12 b12 ha12 hb12).2 (fun k hk =>
        h 12 (by omega) k hk (by omega) (by omega))
    · exact (byte_eq_iff_testBit a13 b13 ha13 hb13).2 (fun k hk =>
        h 13 (by omega) k hk (by omega) (by omega))
    · exact (byte_eq_iff_testBit a14 b14 ha14 hb14).2 (fun k hk =>
        h 14 (by omega) k hk (by omega) (by omega))
    · exact (byte_eq_iff_testBit a15 b15 ha15 hb15).2 (fun k hk =>
        h 15 (by omega) k hk (by omega) (by omega))
  · rintro ⟨e0, e1, e2, e3, e4, e5, e6, e7, e8, e9, e10, e11, e12, e13, e14, e15⟩ i hi k hk c6 c8
    subst e0 e1 e2 e3 e4 e5 e7 e9 e10 e11 e12 e13 e14 e15
    interval_cases i
    all_goals first
      | rfl
      | exact (mod_two_pow_eq_iff_testBit a6 b6 4).1 e6 k (c6 rfl)
      | exact (mod_two_pow_eq_iff_testBit a8 b8 6).1 e8 k (c8 rfl)

/-- C10: for two 16-byte outputs `a` and `b` of the entropy source, the
identifiers `generateUUID` returns are equal exactly when `a` and `b` agree on
every bit other than the high nibble of byte 6 and the top two bits of byte 8,
and so are the database names `"test_" ++ identifier`; outputs that differ in
a retained bit give distinct database names. -/
theorem generateUUID_equal_iff_retained_bits_agree (a b : List Nat) (ida idb : String)
    (ha : IsEntropy a) (hb : IsEntropy b)
    (hida : generateUUID (Except.ok a) = Except.ok ida)
    (hidb : generateUUID (Except.ok b) = Except.ok idb) :
    (ida = idb ↔ AgreeOnRetainedBits a b)
      ∧ (testDBNameOf ida = testDBNameOf idb ↔ AgreeOnRetainedBits a b)
      ∧ (¬ AgreeOnRetainedBits a b → testDBNameOf ida ≠ testDBNameOf idb) := by
  simp only [generateUUID, Except.ok.injEq] at hida hidb
  subst hida hidb
  obtain ⟨halen, habytes⟩ := ha
  obtain ⟨hblen, hbbytes⟩ := hb
  obtain ⟨a0, a1, a2, a3, a4, a5, a6, a7, a8, a9, a10, a11, a12, a13, a14, a15, rfl⟩ :=
    length_sixteen a halen
  obtain ⟨b0, b1, b2, b3, b4, b5, b6, b7, b8, b9, b10, b11, b12, b13, b14, b15, rfl⟩ :=
    length_sixteen b hblen
  have key : formatUUID [a0, a1, a2, a3, a4, a5, a6, a7, a8, a9, a10, a11, a12, a13, a14, a15]
        = formatUUID [b0, b1, b2, b3, b4, b5, b6, b7, b8, b9, b10, b11, b12, b13, b14, b15]
      ↔ AgreeOnRetainedBits [a0, a1, a2, a3, a4, a5, a6, a7, a8, a9, a10, a11, a12, a13, a14, a15]
          [b0, b1, b2, b3, b4, b5, b6, b7, b8, b9, b10, b11, b12, b13, b14, b15] :=
    (formatUUID_eq_sixteen a0 a1 a2 a3 a4 a5 a6 a7 a8 a9 a10 a11 a12 a13 a14 a15 b0 b1 b2 b3 b4 b5 b6 b7 b8 b9 b10 b11 b12 b13 b14 b15 habytes hbbytes).trans
      (agree_sixteen a0 a1 a2 a3 a4 a5 a6 a7 a8 a9 a10 a11 a12 a13 a14 a15 b0 b1 b2 b3 b4 b5 b6 b7 b8 b9 b10 b11 b12 b13 b14 b15 habytes hbbytes).symm
  refine ⟨key, (testDBNameOf_injective _ _).trans key, ?_⟩
  intro hne heq
  exact hne (key.1 ((testDBNameOf_injective _ _).1 heq))

/-- An instance of C10: the bytes `0, 1, ..., 15` against sixteen zero bytes,
which differ in retained bits. -/
theorem generateUUID_equal_iff_retained_bits_agree_witness :
    IsEntropy (List.range 16) ∧ IsEntropy (List.replicate 16 0)
      ∧ generateUUID (Except.ok (List.range 16))
        = Except.ok "00010203_0405_4607_8809_0a0b0c0d0e0f"
      ∧ generateUUID (Except.ok (List.replicate 16 0))
        = Except.ok "00000000_0000_4000_8000_000000000000"
      ∧ ¬ AgreeOnRetainedBits (List.range 16) (List.replicate 16 0)
      ∧ testDBNameOf "00010203_0405_4607_8809_0a0b0c0d0e0f"
        ≠ testDBNameOf "00000000_0000_4000_8000_000000000000" :=
  ⟨by decide, by decide, rfl, rfl, by decide,
    (generateUUID_equal_iff_retained_bits_agree (List.range 16) (List.replicate 16 0)
      "00010203_0405_4607_8809_0a0b0c0d0e0f" "00000000_0000_4000_8000_000000000000"
      (by decide) (by decide) rfl rfl).2.2 (by decide)⟩

end Sqlver
